import Mathlib

/-!
Shallow embedding of `src/main.go` from gacerioni/redis-stream-to-aws-lambda.

The program is a bridge: it reads batches of messages from Redis streams
under a consumer group (XReadGroup), invokes an AWS Lambda per message,
and acknowledges (XAck) messages whose invocation call succeeded.

External collaborators (the Redis store and the Lambda service) are
modelled as oracle functions passed to the embedded program; the embedded
program produces a trace of observable events (store calls, Lambda calls,
log lines) exactly in the order the Go code performs them.
-/

/-- Go `strings.Contains s sub` : `sub` occurs as a contiguous substring of `s`.
Used by `ensureConsumerGroupExists` (main.go line 93). -/
def goContains (s sub : String) : Bool :=
  decide (sub.data <:+: s.data)

/-- Go `strings.Split` for a one-character separator: split at every
occurrence of `sep`, keeping empty fields; an empty input yields one
empty field. -/
def goSplitChar (sep : Char) : List Char → List (List Char)
  | [] => [[]]
  | c :: rest =>
    if c = sep then [] :: goSplitChar sep rest
    else
      match goSplitChar sep rest with
      | [] => [[c]]
      | g :: gs => (c :: g) :: gs

/-- `splitStreams` (main.go lines 84-86): Go `strings.Split(streams, ",")`.
Go splits on every comma and never drops empty fields; `Split("", ",")`
returns a one-element slice holding the empty string. -/
def splitStreams (streams : String) : List String :=
  (goSplitChar ',' streams.data).map String.mk

/-- A Redis stream message (go-redis `redis.XMessage`): an id and a field
map. Values in this program are strings; the Go type is
`map[string]interface{}`, rendered by `fmt` with keys in sorted order. -/
structure XMessage where
  id : String
  values : List (String × String)
deriving DecidableEq, Repr

/-- One entry of an XReadGroup result (go-redis `redis.XStream`):
a stream name and its messages, in the order returned by the store. -/
def Batch : Type := List (String × List XMessage)

/-- Lexicographic order on character lists (Go compares map keys
byte-wise; for the ASCII keys used here this coincides). -/
def charListLt : List Char → List Char → Bool
  | [], [] => false
  | [], _ :: _ => true
  | _ :: _, [] => false
  | c :: cs, d :: ds =>
      if c.toNat < d.toNat then true
      else if d.toNat < c.toNat then false
      else charListLt cs ds

/-- Go string ordering on keys. -/
def keyLt (a b : String) : Bool := charListLt a.data b.data

/-- Insert a key/value pair into a list sorted by key (Go `fmt` prints map
keys in increasing order). -/
def insertByKey (p : String × String) : List (String × String) → List (String × String)
  | [] => [p]
  | q :: rest => if keyLt p.1 q.1 then p :: q :: rest else q :: insertByKey p rest

/-- Sort a field map by key, as Go `fmt` does before printing a map. -/
def sortByKey (l : List (String × String)) : List (String × String) :=
  l.foldr insertByKey []

/-- Go `fmt.Sprintf("%v", m)` for a `map[string]string`:
`map[k1:v1 k2:v2 ...]` with keys in sorted order. -/
def goFmtValues (values : List (String × String)) : String :=
  "map[" ++ String.intercalate " " ((sortByKey values).map (fun p => p.1 ++ ":" ++ p.2)) ++ "]"

/-- The Lambda payload built by `invokeLambda` (main.go line 106):
`fmt.Sprintf("\x7b\"message\": \"%v\"\x7d", message.Values)`. -/
def lambdaPayload (m : XMessage) : String :=
  "\x7b\"message\": \"" ++ goFmtValues m.values ++ "\"\x7d"

/-- Result of a successful `lambda.Invoke` call (`lambda.InvokeOutput`):
a status code and a response payload. -/
structure InvokeOutput where
  statusCode : Int
  payload : String
deriving DecidableEq, Repr

/-- Arguments of the XReadGroup call (go-redis `redis.XReadGroupArgs`)
as built in main.go lines 41-47. -/
structure XReadGroupArgs where
  group : String
  consumer : String
  streams : List String
  count : Nat
  block : Nat
deriving DecidableEq, Repr

/-- The XReadGroup arguments main.go lines 41-47 builds: fixed consumer
`"consumer-1"`, `Streams: append(streamList, ">")` (a single `">"`
appended after the whole stream list), `Count: 10`, `Block: 0`. -/
def mkReadArgs (consumerGroup : String) (streamList : List String) : XReadGroupArgs :=
  { group := consumerGroup
    consumer := "consumer-1"
    streams := streamList ++ [">"]
    count := 10
    block := 0 }

/-- Observable events of the program, in the order the Go code performs
them: Redis calls, Lambda calls, and the individual log statements of
main.go (each log constructor corresponds to one `log.Printf`/`log.Fatalf`
in the source, carrying its format arguments). -/
inductive Event where
  | logFatalParse (err : String)
  | xGroupCreateMkStream (stream group start : String)
  | logGroupCreated (group stream : String)
  | logGroupExists (group stream : String)
  | logFatalGroup (err : String)
  | xReadGroup (args : XReadGroupArgs)
  | logReadError (err : String)
  | logProcessing (id stream : String)
  | invoke (functionName payload : String)
  | logInvokeSuccess (statusCode : Int) (payload : String)
  | logInvokeError (err : String)
  | xAck (stream group id : String)
  | logAcked (id group : String)
deriving DecidableEq, Repr

/-- `invokeLambda` (main.go lines 105-118): build the payload, call
`lambdaClient.Invoke`; on a call error return the error (no log); otherwise
log the status code and response and return nil. The status code is never
examined. Returns the emitted events and the returned error (if any). -/
def invokeLambda (invoke : String → String → Except String InvokeOutput)
    (functionName : String) (m : XMessage) : List Event × Option String :=
  let payload := lambdaPayload m
  match invoke functionName payload with
  | Except.error e => ([Event.invoke functionName payload], some e)
  | Except.ok r =>
      ([Event.invoke functionName payload, Event.logInvokeSuccess r.statusCode r.payload], none)

/-- The per-message body of the dispatch loop (main.go lines 56-67):
log "Processing message ID ...", call `invokeLambda`; on error log
"Error invoking Lambda"; on success call `rdb.XAck` — whose returned
error the source DISCARDS (line 64 ignores the result) — and then
unconditionally log "Message ID ... acknowledged". `ackResult` models the
store's answer to the XAck call; the source never reads it. -/
def processMessage (invoke : String → String → Except String InvokeOutput)
    (ackResult : String → String → String → Option String)
    (lambdaName consumerGroup stream : String) (m : XMessage) : List Event :=
  let (invEvents, invErr) := invokeLambda invoke lambdaName m
  Event.logProcessing m.id stream :: invEvents ++
    match invErr with
    | some e => [Event.logInvokeError e]
    | none =>
        let _ := ackResult stream consumerGroup m.id
        [Event.xAck stream consumerGroup m.id, Event.logAcked m.id consumerGroup]

/-- The BUSYGROUP error string Redis returns when the consumer group
already exists; main.go line 93 tests for it with `strings.Contains`. -/
def busygroupError : String := "BUSYGROUP Consumer Group name already exists"

/-- Outcome of `ensureConsumerGroupExists` for the process: the group was
created, it already existed (treated as success), or the process dies via
`log.Fatalf`. -/
inductive EnsureOutcome where
  | created
  | alreadyExists
  | fatal (err : String)
deriving DecidableEq, Repr

/-- The decision logic of `ensureConsumerGroupExists` (main.go lines
89-102) given the error returned by `XGroupCreateMkStream` (`none` =
success): no error logs "created"; an error containing the BUSYGROUP
message logs "already exists" and continues; any other error is
`log.Fatalf`. -/
def ensureConsumerGroupExists (createErr : Option String) : EnsureOutcome :=
  match createErr with
  | none => EnsureOutcome.created
  | some e =>
      if goContains e busygroupError then EnsureOutcome.alreadyExists
      else EnsureOutcome.fatal e

/-- `true` when a `XGroupCreateMkStream` result makes
`ensureConsumerGroupExists` call `log.Fatalf`. -/
def isFatalCreate (createErr : Option String) : Bool :=
  match createErr with
  | none => false
  | some e => !goContains e busygroupError

/-- Events emitted by one `ensureConsumerGroupExists` call: the
`XGroupCreateMkStream(stream, group, "$")` call followed by the log line
chosen by the outcome. -/
def ensureEvents (stream group : String) (o : EnsureOutcome) : List Event :=
  Event.xGroupCreateMkStream stream group "$" ::
    match o with
    | EnsureOutcome.created => [Event.logGroupCreated group stream]
    | EnsureOutcome.alreadyExists => [Event.logGroupExists group stream]
    | EnsureOutcome.fatal e => [Event.logFatalGroup e]

/-- The startup loop of `main` (main.go lines 30-33): run
`ensureConsumerGroupExists` on each stream in order. `log.Fatalf`
terminates the process, so a fatal outcome stops the loop; the returned
Bool is `true` when the process died. `createErr` models the store's
answer to each `XGroupCreateMkStream(stream, group)` call. -/
def runStartup (createErr : String → String → Option String) (group : String) :
    List String → List Event × Bool
  | [] => ([], false)
  | s :: rest =>
    let o := ensureConsumerGroupExists (createErr s group)
    let evs := ensureEvents s group o
    match o with
    | EnsureOutcome.fatal _ => (evs, true)
    | _ =>
        let r := runStartup createErr group rest
        (evs ++ r.1, r.2)

/-- One iteration of the dispatch loop (main.go lines 40-69): issue the
XReadGroup call; on error log it and continue; on success process every
message of every returned stream entry in order. `readResult` models the
store's answer to this XReadGroup call. -/
def runIteration (invoke : String → String → Except String InvokeOutput)
    (ackResult : String → String → String → Option String)
    (lambdaName consumerGroup : String) (streamList : List String)
    (readResult : Except String Batch) : List Event :=
  Event.xReadGroup (mkReadArgs consumerGroup streamList) ::
    match readResult with
    | Except.error e => [Event.logReadError e]
    | Except.ok entries =>
        entries.flatMap fun entry =>
          entry.2.flatMap (processMessage invoke ackResult lambdaName consumerGroup entry.1)

/-- The dispatch loop (main.go lines 40-69), unrolled over a finite list
of successive XReadGroup results (the loop itself never exits). -/
def runLoop (invoke : String → String → Except String InvokeOutput)
    (ackResult : String → String → String → Option String)
    (lambdaName consumerGroup : String) (streamList : List String) :
    List (Except String Batch) → List Event
  | [] => []
  | r :: rest =>
      runIteration invoke ackResult lambdaName consumerGroup streamList r ++
        runLoop invoke ackResult lambdaName consumerGroup streamList rest

/-- The four environment inputs of `main` (main.go lines 20-23). -/
structure Config where
  redisURL : String
  streams : String
  consumerGroup : String
  lambdaName : String
deriving Repr

/-- `main` (main.go lines 18-70) together with `initializeRedisClient`
(lines 73-81): parse the Redis URL (`log.Fatalf` on a parse error, before
any store call), split the stream list, run startup group creation
(`log.Fatalf` stops everything), then run the dispatch loop over the given
finite list of XReadGroup results. Returns the event trace and `true` when
the process terminated via `log.Fatalf`. `parseErr` models
`redis.ParseURL`. -/
def runMain (parseErr : String → Option String)
    (createErr : String → String → Option String)
    (invoke : String → String → Except String InvokeOutput)
    (ackResult : String → String → String → Option String)
    (reads : List (Except String Batch)) (cfg : Config) : List Event × Bool :=
  match parseErr cfg.redisURL with
  | some e => ([Event.logFatalParse e], true)
  | none =>
    let streamList := splitStreams cfg.streams
    let r := runStartup createErr cfg.consumerGroup streamList
    if r.2 then (r.1, true)
    else (r.1 ++ runLoop invoke ackResult cfg.lambdaName cfg.consumerGroup streamList reads, false)

/-- Model of the external store's group-creation call, per spec section 6:
`ensure-group(stream, group) → ok | already-exists`. The store state is
the set of existing (stream, group) pairs; creating an existing group
returns the BUSYGROUP error, otherwise the group is created. -/
def storeXGroupCreateMkStream (store : List (String × String)) (stream group : String) :
    List (String × String) × Option String :=
  if (stream, group) ∈ store then (store, some busygroupError)
  else ((stream, group) :: store, none)

/-- Whether an `EnsureOutcome` is the fatal one. -/
def EnsureOutcome.isFatal : EnsureOutcome → Bool
  | EnsureOutcome.fatal _ => true
  | _ => false

/-- Whether an event is a dispatch-loop store call (a claim or
acknowledgment call). -/
def isDispatchCall : Event → Bool
  | Event.xReadGroup _ => true
  | Event.xAck _ _ _ => true
  | _ => false

/-- Whether an event is any store call at all. -/
def isStoreCall : Event → Bool
  | Event.xGroupCreateMkStream _ _ _ => true
  | Event.xReadGroup _ => true
  | Event.xAck _ _ _ => true
  | _ => false

/-- Projection of a trace onto dispatch/acknowledgment marks: a
`logProcessing` event (emitted exactly once, just before each message is
dispatched) becomes `(stream, id, false)`; an `xAck` call becomes
`(stream, id, true)`; everything else is dropped. -/
def markOf : Event → Option (String × String × Bool)
  | Event.logProcessing id stream => some (stream, id, false)
  | Event.xAck stream _ id => some (stream, id, true)
  | _ => none

/-- The dispatch/acknowledgment marks of a trace, in trace order. -/
def dispatchMarks (tr : List Event) : List (String × String × Bool) :=
  tr.filterMap markOf

/-- Written from the spec's words (section 4.2 step 4): processing is
strictly sequential, message by message, stream by stream, in the order
returned by the claim call, and a message's acknowledgment (issued exactly
when its invocation call succeeds) happens before the next message is
dispatched. -/
def seqDispatchSpec (invoke : String → String → Except String InvokeOutput)
    (lambdaName : String) (entries : Batch) : List (String × String × Bool) :=
  entries.flatMap fun entry =>
    entry.2.flatMap fun m =>
      (entry.1, m.id, false) ::
        match invoke lambdaName (lambdaPayload m) with
        | Except.ok _ => [(entry.1, m.id, true)]
        | Except.error _ => []

/-! ## Claim theorems -/

/-- C1 counterexample: the claim says a non-success status counts as an
invocation failure and must leave the message unacknowledged; but when the
Invoke call returns without error carrying status code 500, the code still
issues the acknowledgment call. -/
theorem c1_counterexample_status_ignored :
    Event.xAck "s" "g" "1-1" ∈
      processMessage (fun _ _ => Except.ok ⟨500, "internal error"⟩) (fun _ _ _ => none)
        "fn" "g" "s" ⟨"1-1", [("k", "v")]⟩ ∧
    (500 : Int) ≠ 200 := by
  decide

/-- C1 (amended): an acknowledgment call (by stream, consumer group and
message id) is issued if and only if the Invoke call itself returned
without error — the returned status code is never examined — and on a call
error the error is logged and no acknowledgment is issued. -/
theorem c1_ack_iff_invoke_call_succeeds
    (invoke : String → String → Except String InvokeOutput)
    (ackResult : String → String → String → Option String)
    (lambdaName consumerGroup stream : String) (m : XMessage) :
    ((Event.xAck stream consumerGroup m.id ∈
        processMessage invoke ackResult lambdaName consumerGroup stream m) ↔
      ∃ r, invoke lambdaName (lambdaPayload m) = Except.ok r) ∧
    (∀ e, invoke lambdaName (lambdaPayload m) = Except.error e →
      Event.logInvokeError e ∈
        processMessage invoke ackResult lambdaName consumerGroup stream m) := by
  cases h : invoke lambdaName (lambdaPayload m) <;>
    simp [processMessage, invokeLambda, h]

/-- C1 witness: the amended theorem applied at a concrete failing Invoke
call. -/
theorem c1_witness :
    Event.logInvokeError "boom" ∈
      processMessage (fun _ _ => Except.error "boom") (fun _ _ _ => none)
        "fn" "g" "s" ⟨"1-1", []⟩ :=
  (c1_ack_iff_invoke_call_succeeds (fun _ _ => Except.error "boom") (fun _ _ _ => none)
    "fn" "g" "s" ⟨"1-1", []⟩).2 "boom" rfl

/-- C2: with two configured streams the read arguments carry the
undelivered sentinel only once (appended after the whole stream list, an
unbalanced stream/id list), not once per stream as the claim requires;
the fixed consumer, batch bound 10 and indefinite block are as claimed. -/
theorem c2_single_sentinel_unbalanced :
    (mkReadArgs "g1" ["s1", "s2"]).streams = ["s1", "s2", ">"] ∧
    (mkReadArgs "g1" ["s1", "s2"]).streams.count ">" = 1 ∧
    (mkReadArgs "g1" ["s1", "s2"]).consumer = "consumer-1" ∧
    (mkReadArgs "g1" ["s1", "s2"]).count = 10 ∧
    (mkReadArgs "g1" ["s1", "s2"]).block = 0 := by
  decide

/-- C3: the payload rendering is not faithful — two distinct field maps
produce the identical invocation payload, so the keys and values are not
recoverable from the payload. -/
theorem c3_payload_not_faithful :
    lambdaPayload ⟨"1-1", [("a", "1 b:2")]⟩ = lambdaPayload ⟨"1-2", [("a", "1"), ("b", "2")]⟩ ∧
    ([("a", "1 b:2")] : List (String × String)) ≠ [("a", "1"), ("b", "2")] := by
  decide

/-- C4: the error returned by the acknowledgment call is discarded — the
trace after a failed acknowledgment is identical to the trace after a
successful one (so the failure is never logged), and the "acknowledged"
log line is emitted regardless. -/
theorem c4_ack_error_silently_dropped :
    processMessage (fun _ _ => Except.ok ⟨200, "ok"⟩) (fun _ _ _ => some "connection refused")
        "fn" "g" "s" ⟨"1-1", [("k", "v")]⟩ =
      processMessage (fun _ _ => Except.ok ⟨200, "ok"⟩) (fun _ _ _ => none)
        "fn" "g" "s" ⟨"1-1", [("k", "v")]⟩ ∧
    Event.logAcked "1-1" "g" ∈
      processMessage (fun _ _ => Except.ok ⟨200, "ok"⟩) (fun _ _ _ => some "connection refused")
        "fn" "g" "s" ⟨"1-1", [("k", "v")]⟩ := by
  decide

/-- C5: group initialization is idempotent — creating the group twice on
the same (stream, group) pair against the store never reaches the fatal
path; the second creation reports BUSYGROUP, which is treated as success
and logged informationally. -/
theorem c5_group_creation_idempotent (store : List (String × String)) (stream group : String) :
    (∀ e, ensureConsumerGroupExists (storeXGroupCreateMkStream store stream group).2 ≠
      EnsureOutcome.fatal e) ∧
    ensureConsumerGroupExists
        (storeXGroupCreateMkStream (storeXGroupCreateMkStream store stream group).1 stream group).2 =
      EnsureOutcome.alreadyExists ∧
    Event.logGroupExists group stream ∈
      ensureEvents stream group
        (ensureConsumerGroupExists
          (storeXGroupCreateMkStream (storeXGroupCreateMkStream store stream group).1 stream group).2) := by
  have hbg : goContains busygroupError busygroupError = true := by decide
  by_cases h : (stream, group) ∈ store <;>
    simp [storeXGroupCreateMkStream, ensureConsumerGroupExists, ensureEvents, h, hbg]

/-- C5 witness: the theorem applied to an initially empty store. -/
theorem c5_witness :
    ensureConsumerGroupExists
        (storeXGroupCreateMkStream (storeXGroupCreateMkStream [] "orders" "g1").1 "orders" "g1").2 =
      EnsureOutcome.alreadyExists :=
  (c5_group_creation_idempotent [] "orders" "g1").2.1

/-- The fatal check of `ensureConsumerGroupExists` agrees with
`isFatalCreate`. -/
theorem ensure_isFatal (o : Option String) :
    (ensureConsumerGroupExists o).isFatal = isFatalCreate o := by
  cases o with
  | none => rfl
  | some e =>
      by_cases h : goContains e busygroupError <;>
        simp [ensureConsumerGroupExists, isFatalCreate, EnsureOutcome.isFatal, h]

/-- Startup dies exactly when some stream's group creation fails with a
non-BUSYGROUP error. -/
theorem runStartup_fatal_any (createErr : String → String → Option String) (group : String) :
    ∀ ss : List String,
      (runStartup createErr group ss).2 = ss.any fun s => isFatalCreate (createErr s group)
  | [] => rfl
  | s :: rest => by
      have h := ensure_isFatal (createErr s group)
      have ih := runStartup_fatal_any createErr group rest
      cases ho : ensureConsumerGroupExists (createErr s group) <;>
        rw [ho] at h <;>
        simp [runStartup, ho, EnsureOutcome.isFatal] at h ⊢ <;>
        simp [← h, ih]

/-- Startup emits no dispatch-loop store calls (no claim, no
acknowledgment). -/
theorem runStartup_no_dispatch_call (createErr : String → String → Option String) (group : String) :
    ∀ ss : List String,
      ((runStartup createErr group ss).1.all fun ev => !isDispatchCall ev) = true
  | [] => rfl
  | s :: rest => by
      have ih := runStartup_no_dispatch_call createErr group rest
      cases ho : ensureConsumerGroupExists (createErr s group) <;>
        simp [runStartup, ho, ensureEvents, isDispatchCall] at ih ⊢ <;>
        exact ih

/-- When startup dies, the fatal cause was logged. -/
theorem runStartup_fatal_logged (createErr : String → String → Option String) (group : String) :
    ∀ ss : List String, (runStartup createErr group ss).2 = true →
      ∃ e, Event.logFatalGroup e ∈ (runStartup createErr group ss).1
  | [] => by intro h; exact absurd h (by simp [runStartup])
  | s :: rest => by
      intro h
      have ih := runStartup_fatal_logged createErr group rest
      cases ho : ensureConsumerGroupExists (createErr s group) <;>
        simp [runStartup, ho, ensureEvents] at h ⊢
      · exact ih h
      · exact ih h

/-- C6: when some configured stream's group creation fails with a
non-BUSYGROUP error, the process terminates, the cause is logged, and the
trace contains no claim call and no acknowledgment call. -/
theorem c6_nonbusygroup_create_is_fatal
    (parseErr : String → Option String) (createErr : String → String → Option String)
    (invoke : String → String → Except String InvokeOutput)
    (ackResult : String → String → String → Option String)
    (reads : List (Except String Batch)) (cfg : Config)
    (hp : parseErr cfg.redisURL = none)
    (hf : ((splitStreams cfg.streams).any fun s => isFatalCreate (createErr s cfg.consumerGroup)) = true) :
    (runMain parseErr createErr invoke ackResult reads cfg).2 = true ∧
    (∃ e, Event.logFatalGroup e ∈ (runMain parseErr createErr invoke ackResult reads cfg).1) ∧
    ((runMain parseErr createErr invoke ackResult reads cfg).1.all fun ev => !isDispatchCall ev) = true := by
  have h2 : (runStartup createErr cfg.consumerGroup (splitStreams cfg.streams)).2 = true := by
    rw [runStartup_fatal_any]; exact hf
  have hev := runStartup_no_dispatch_call createErr cfg.consumerGroup (splitStreams cfg.streams)
  have hlog := runStartup_fatal_logged createErr cfg.consumerGroup (splitStreams cfg.streams) h2
  simp only [runMain, hp, h2, if_true]
  exact ⟨trivial, hlog, hev⟩

/-- C6 witness: a concrete configuration whose only stream fails group
creation with a non-BUSYGROUP error. -/
theorem c6_witness :
    (runMain (fun _ => none) (fun _ _ => some "ERR wrongtype") (fun _ _ => Except.ok ⟨200, "ok"⟩)
      (fun _ _ _ => none) [] ⟨"redis://h", "s1", "g1", "fn"⟩).2 = true :=
  (c6_nonbusygroup_create_is_fatal (fun _ => none) (fun _ _ => some "ERR wrongtype")
    (fun _ _ => Except.ok ⟨200, "ok"⟩) (fun _ _ _ => none) [] ⟨"redis://h", "s1", "g1", "fn"⟩
    rfl (by decide)).1

/-- C7: a failed claim call is logged, causes no acknowledgment call in
that iteration, the loop then processes the subsequent reads unchanged
(immediate retry), and whether the process terminates never depends on
the read results at all. -/
theorem c7_read_error_logged_retry
    (parseErr : String → Option String) (createErr : String → String → Option String)
    (invoke : String → String → Except String InvokeOutput)
    (ackResult : String → String → String → Option String)
    (lambdaName consumerGroup : String) (streamList : List String) (e : String)
    (rest reads reads2 : List (Except String Batch)) (cfg : Config) :
    runIteration invoke ackResult lambdaName consumerGroup streamList (Except.error e) =
      [Event.xReadGroup (mkReadArgs consumerGroup streamList), Event.logReadError e] ∧
    (∀ s g id, Event.xAck s g id ∉
      runIteration invoke ackResult lambdaName consumerGroup streamList (Except.error e)) ∧
    runLoop invoke ackResult lambdaName consumerGroup streamList (Except.error e :: rest) =
      runIteration invoke ackResult lambdaName consumerGroup streamList (Except.error e) ++
        runLoop invoke ackResult lambdaName consumerGroup streamList rest ∧
    (runMain parseErr createErr invoke ackResult reads cfg).2 =
      (runMain parseErr createErr invoke ackResult reads2 cfg).2 := by
  refine ⟨rfl, ?_, rfl, ?_⟩
  · intro s g id
    simp [runIteration]
  · cases hp : parseErr cfg.redisURL with
    | none =>
        simp only [runMain, hp]
        by_cases h : (runStartup createErr cfg.consumerGroup (splitStreams cfg.streams)).2 <;>
          simp [h]
    | some e => simp [runMain, hp]

/-- C7 witness: the no-acknowledgment conjunct at a concrete failed read. -/
theorem c7_witness :
    Event.xAck "s1" "g1" "1-1" ∉
      runIteration (fun _ _ => Except.ok ⟨200, "ok"⟩) (fun _ _ _ => none) "fn" "g1" ["s1"]
        (Except.error "connection lost") :=
  (c7_read_error_logged_retry (fun _ => none) (fun _ _ => none)
    (fun _ _ => Except.ok ⟨200, "ok"⟩) (fun _ _ _ => none) "fn" "g1" ["s1"] "connection lost"
    [] [] [] ⟨"redis://h", "s1", "g1", "fn"⟩).2.1 "s1" "g1" "1-1"

/-- The dispatch marks of one appended trace. -/
theorem dispatchMarks_append (l1 l2 : List Event) :
    dispatchMarks (l1 ++ l2) = dispatchMarks l1 ++ dispatchMarks l2 := by
  simp [dispatchMarks]

/-- The dispatch marks of one message's processing: the dispatch mark,
then the acknowledgment mark exactly when the Invoke call succeeded. -/
theorem dispatchMarks_processMessage
    (invoke : String → String → Except String InvokeOutput)
    (ackResult : String → String → String → Option String)
    (lambdaName consumerGroup stream : String) (m : XMessage) :
    dispatchMarks (processMessage invoke ackResult lambdaName consumerGroup stream m) =
      (stream, m.id, false) ::
        (match invoke lambdaName (lambdaPayload m) with
          | Except.ok _ => [(stream, m.id, true)]
          | Except.error _ => []) := by
  cases h : invoke lambdaName (lambdaPayload m) <;>
    simp [processMessage, invokeLambda, dispatchMarks, markOf, h]

/-- The dispatch marks of one stream entry's messages, in order. -/
theorem dispatchMarks_messages
    (invoke : String → String → Except String InvokeOutput)
    (ackResult : String → String → String → Option String)
    (lambdaName consumerGroup stream : String) :
    ∀ msgs : List XMessage,
      dispatchMarks (msgs.flatMap (processMessage invoke ackResult lambdaName consumerGroup stream)) =
        msgs.flatMap (fun m => (stream, m.id, false) ::
          (match invoke lambdaName (lambdaPayload m) with
            | Except.ok _ => [(stream, m.id, true)]
            | Except.error _ => []))
  | [] => rfl
  | m :: ms => by
      rw [List.flatMap_cons, List.flatMap_cons, dispatchMarks_append,
        dispatchMarks_processMessage,
        dispatchMarks_messages invoke ackResult lambdaName consumerGroup stream ms]

/-- The dispatch marks of a whole batch, entry by entry. -/
theorem dispatchMarks_entries
    (invoke : String → String → Except String InvokeOutput)
    (ackResult : String → String → String → Option String)
    (lambdaName consumerGroup : String) :
    ∀ entries : List (String × List XMessage),
      dispatchMarks (entries.flatMap fun entry =>
          entry.2.flatMap (processMessage invoke ackResult lambdaName consumerGroup entry.1)) =
        seqDispatchSpec invoke lambdaName entries
  | [] => rfl
  | entry :: rest => by
      rw [List.flatMap_cons, dispatchMarks_append,
        dispatchMarks_messages invoke ackResult lambdaName consumerGroup entry.1,
        dispatchMarks_entries invoke ackResult lambdaName consumerGroup rest]
      rfl

/-- C8: within one claimed batch the dispatch/acknowledgment marks of the
trace are exactly the spec's sequential order — message by message, stream
by stream, in the order returned by the claim call, each message's
acknowledgment (issued exactly when its invocation call succeeds) placed
before the next message's dispatch. -/
theorem c8_sequential_dispatch
    (invoke : String → String → Except String InvokeOutput)
    (ackResult : String → String → String → Option String)
    (lambdaName consumerGroup : String) (streamList : List String) (entries : Batch) :
    dispatchMarks
        (runIteration invoke ackResult lambdaName consumerGroup streamList (Except.ok entries)) =
      seqDispatchSpec invoke lambdaName entries := by
  have h := dispatchMarks_entries invoke ackResult lambdaName consumerGroup entries
  simp only [runIteration, dispatchMarks, List.filterMap_cons, markOf] at h ⊢
  exact h

/-- C8 witness: the theorem at a concrete two-stream batch with one
failing invocation. -/
theorem c8_witness :
    dispatchMarks
        (runIteration (fun _ p => if p = lambdaPayload ⟨"1-2", [("b", "2")]⟩
            then Except.error "boom" else Except.ok ⟨200, "ok"⟩)
          (fun _ _ _ => none) "fn" "g1" ["s1", "s2"]
          (Except.ok [("s1", [⟨"1-1", [("a", "1")]⟩, ⟨"1-2", [("b", "2")]⟩]),
                      ("s2", [⟨"2-1", [("c", "3")]⟩])])) =
      seqDispatchSpec (fun _ p => if p = lambdaPayload ⟨"1-2", [("b", "2")]⟩
            then Except.error "boom" else Except.ok ⟨200, "ok"⟩)
        "fn" [("s1", [⟨"1-1", [("a", "1")]⟩, ⟨"1-2", [("b", "2")]⟩]),
              ("s2", [⟨"2-1", [("c", "3")]⟩])] :=
  c8_sequential_dispatch
    (fun _ p => if p = lambdaPayload ⟨"1-2", [("b", "2")]⟩
      then Except.error "boom" else Except.ok ⟨200, "ok"⟩)
    (fun _ _ _ => none) "fn" "g1" ["s1", "s2"]
    [("s1", [⟨"1-1", [("a", "1")]⟩, ⟨"1-2", [("b", "2")]⟩]), ("s2", [⟨"2-1", [("c", "3")]⟩])]

/-- C9: an empty stream-list configuration splits into a single empty
stream name, and the process then attempts group creation on the stream
named by the empty string. -/
theorem c9_empty_config_single_empty_stream
    (parseErr : String → Option String) (createErr : String → String → Option String)
    (invoke : String → String → Except String InvokeOutput)
    (ackResult : String → String → String → Option String)
    (reads : List (Except String Batch)) (cfg : Config)
    (hs : cfg.streams = "") (hp : parseErr cfg.redisURL = none) :
    splitStreams cfg.streams = [""] ∧
    Event.xGroupCreateMkStream "" cfg.consumerGroup "$" ∈
      (runMain parseErr createErr invoke ackResult reads cfg).1 := by
  have h1 : splitStreams cfg.streams = [""] := by rw [hs]; decide
  refine ⟨h1, ?_⟩
  simp only [runMain, hp, h1]
  cases ho : ensureConsumerGroupExists (createErr "" cfg.consumerGroup) <;>
    simp [runStartup, ho, ensureEvents]

/-- C9 witness: the theorem at a concrete configuration whose stream list
is the empty string. -/
theorem c9_witness :
    Event.xGroupCreateMkStream "" "g1" "$" ∈
      (runMain (fun _ => none) (fun _ _ => none) (fun _ _ => Except.ok ⟨200, "ok"⟩)
        (fun _ _ _ => none) [] ⟨"redis://h", "", "g1", "fn"⟩).1 :=
  (c9_empty_config_single_empty_stream (fun _ => none) (fun _ _ => none)
    (fun _ _ => Except.ok ⟨200, "ok"⟩) (fun _ _ _ => none) [] ⟨"redis://h", "", "g1", "fn"⟩
    rfl rfl).2

/-- C10: a Redis URL that fails to parse terminates the process with only
the parse-failure log — before any store call of any kind (no group
creation, no claim, no acknowledgment). -/
theorem c10_parse_error_atomic_startup
    (parseErr : String → Option String) (createErr : String → String → Option String)
    (invoke : String → String → Except String InvokeOutput)
    (ackResult : String → String → String → Option String)
    (reads : List (Except String Batch)) (cfg : Config) (e : String)
    (h : parseErr cfg.redisURL = some e) :
    runMain parseErr createErr invoke ackResult reads cfg = ([Event.logFatalParse e], true) ∧
    ((runMain parseErr createErr invoke ackResult reads cfg).1.all fun ev => !isStoreCall ev) = true := by
  simp [runMain, h, isStoreCall]

/-- C10 witness: the theorem at a concrete malformed URL. -/
theorem c10_witness :
    runMain (fun _ => some "invalid redis URL scheme: h2tp") (fun _ _ => none)
        (fun _ _ => Except.ok ⟨200, "ok"⟩) (fun _ _ _ => none) []
        ⟨"h2tp://h", "s1", "g1", "fn"⟩ =
      ([Event.logFatalParse "invalid redis URL scheme: h2tp"], true) :=
  (c10_parse_error_atomic_startup (fun _ => some "invalid redis URL scheme: h2tp")
    (fun _ _ => none) (fun _ _ => Except.ok ⟨200, "ok"⟩) (fun _ _ _ => none) []
    ⟨"h2tp://h", "s1", "g1", "fn"⟩ "invalid redis URL scheme: h2tp" rfl).1
